import Mathlib

/-!
Verification development for the Ola Ride Insights pipeline.

The definitions below are a shallow embedding of the repository's data
pipeline:

* `cleanRow` / `cleanTable` embed `OlaDataProcessor.clean_data`
  (src/data_processor.py).  A `Row` models one record of the pandas
  DataFrame after pandas' type coercion: every string column is
  `Option String` (pandas `NaN` = `none`), every numeric column is
  `Option ℚ` (post `pd.to_numeric(..., errors='coerce')`; `NaN` = `none`),
  and the date / time columns are `Option Nat` codes (post
  `pd.to_datetime`; a date is coded `yyyymmdd`, a time as seconds of day).
* `vehicleSummaryDP`, `dailySummaryDP`, `customerSummaryDP` embed the
  `CREATE TABLE ... AS SELECT` statements of
  `OlaDataProcessor._create_summary_tables`, and `vehicleSummaryRP` the
  variant in `run_project.create_summary_tables`.  SQL `AVG`/`SUM`
  semantics (NULLs ignored, NULL result on an empty set of non-NULL
  inputs) are modelled by `optAvg` / `optSum`; SQLite `ROUND(x, 2)`
  (round half away from zero) by `round2`.
* `createDatabaseDP` / `runPipelineDP` embed
  `OlaDataProcessor.create_database` (pandas `to_sql(..., if_exists=
  'replace')` for the `rides` table, `CREATE TABLE IF NOT EXISTS` for the
  three summary tables) and the load-clean-persist control flow.
* `topCustomerAggs` / `isTopResult` embed
  `BusinessQueries.get_top_customers` (src/database_manager.py): the
  aggregation, the `HAVING Total_Spent > 0` filter, and the
  `ORDER BY Total_Spent DESC LIMIT ?` clause.  Since SQL leaves the
  relative order of rows with equal sort keys unspecified, the query's
  result is modelled as the relation `isTopResult`: any sorted
  permutation of the aggregate rows, truncated by the limit (SQLite
  treats a negative `LIMIT` as "no limit").
* `revenuePerKmRP` embeds the unguarded division
  `df['Booking_Value'] / df['Ride_Distance']` of `run_project.py`
  (pandas float semantics: `x / 0` is `±inf`, anything with `NaN` is
  `NaN`), in contrast to the `np.where`-guarded computation inside
  `cleanRow`.
* Two error paths of `clean_data` are modelled explicitly rather than
  collapsed: `timeColumnPass` captures the `Time` coercion of
  data_processor.py line 104 at the level of the column's dynamic type
  (text parses; the `datetime.time` objects produced by a previous pass
  raise `TypeError`, so a second pass over cleaned output crashes), and
  `hourOfE` / `cleanTableE` capture the `Hour` derivation of lines
  120-121 (`pd.to_datetime` with default `errors='raise'` on the
  `'NaT'`-bearing concatenation: a row with an absent date or time
  aborts cleaning before the removal step, producing no table).

Row order of stored summary tables is not significant for any property
below; summaries are modelled with groups listed in first-appearance
order of their keys (SQL `GROUP BY` output order is unspecified).
-/

/-- `b.startsWith a` on character lists: does the second list start with
the first?  Used to embed pandas `str.contains`. -/
def charsStart : List Char → List Char → Bool
  | [], _ => true
  | _ :: _, [] => false
  | a :: as, b :: bs => a == b && charsStart as bs

/-- Does the second character list contain the first as a contiguous
sublist? -/
def charsHave (nd : List Char) : List Char → Bool
  | [] => nd.isEmpty
  | b :: bs => charsStart nd (b :: bs) || charsHave nd bs

/-- Substring test, embedding pandas `Series.str.contains(tok)` (plain,
case-sensitive match). -/
def strContains (hay nd : String) : Bool :=
  charsHave nd.toList hay.toList

/-- `str.contains(tok, na=False)`: an absent value never matches. -/
def optContains (s : Option String) (nd : String) : Bool :=
  match s with
  | some v => strContains v nd
  | none => false

/-- Step 1 of `clean_data`: `replace('null', np.nan)` on a string cell. -/
def normStr (s : Option String) : Option String :=
  match s with
  | some v => if v = "null" then none else some v
  | none => none

/-- One record of the rides DataFrame, after pandas type coercion.
Derived columns are present as fields because `clean_data` adds them;
on raw input their content is irrelevant since cleaning overwrites every
one of them. -/
structure Row where
  bookingId : Option String
  customerId : Option String
  vehicleType : Option String
  bookingStatus : Option String
  paymentMethod : Option String
  pickupLocation : Option String
  dropLocation : Option String
  cancelByCustomer : Option String
  cancelByDriver : Option String
  date : Option Nat
  time : Option Nat
  vTat : Option ℚ
  cTat : Option ℚ
  bookingValue : Option ℚ
  rideDistance : Option ℚ
  driverRatings : Option ℚ
  customerRating : Option ℚ
  year : Option Nat
  month : Option Nat
  day : Option Nat
  weekday : Option Nat
  hour : Option Nat
  isSuccessful : Nat
  isCustomerCancel : Nat
  isDriverCancel : Nat
  revenuePerKm : Option ℚ
deriving DecidableEq, Repr

/-- Business-logic fill of `Ride_Distance`:
`clean_data.loc[Booking_Status != 'Success', 'Ride_Distance'].fillna(0)`. -/
def fillDist (st : Option String) (d : Option ℚ) : Option ℚ :=
  if st = some "Success" then d else some (d.getD 0)

/-- Business-logic fill of `Payment_Method`: successful rides with an
absent payment method default to `'Cash'`. -/
def fillPay (st : Option String) (p : Option String) : Option String :=
  if st = some "Success" ∧ p = none then some "Cash" else p

/-- `Revenue_Per_KM` of `clean_data`:
`np.where((Ride_Distance > 0) & (Is_Successful == 1),
Booking_Value / Ride_Distance, np.nan)`.  Note `NaN > 0` is false in
pandas, and `NaN / d` is `NaN`, so an absent operand yields an absent
result. -/
def revOf (st : Option String) (v d0 : Option ℚ) : Option ℚ :=
  match d0 with
  | some d => if 0 < d ∧ st = some "Success" then v.map (fun x => x / d) else none
  | none => none

/-- Value of the `Hour` column on a row whose date and time are both
present.  This is only the success branch of the derivation at
data_processor.py lines 120-121: when either part is absent the real
code raises instead of producing an absent hour — that error path is
modelled by `hourOfE` and `cleanTableE` below, and `cleanRow` is
therefore faithful only for rows on which the derivation succeeds (the
claims below use it that way, or pair it with `cleanTableE`). -/
def hourOf (date time : Option Nat) : Option Nat :=
  match date, time with
  | some _, some t => some (t / 3600 % 24)
  | _, _ => none

/-- Error raised by `pd.to_datetime` on the date+time string
concatenation when a part is absent (`str(NaT)` is unparseable). -/
def concatParseError : String :=
  "ValueError: unparseable NaT in date-time concatenation"

/-- The `Hour` derivation of data_processor.py lines 120-121 with its
error path: `pd.to_datetime(Date.astype(str) + ' ' + Time.astype(str))`
uses the default `errors='raise'`, so an absent date or time prints as
`NaT`/`nan` and the unparseable concatenation raises; only when both
parts are present does the combined timestamp parse and `.dt.hour`
apply. -/
def hourOfE (date time : Option Nat) : Except String Nat :=
  match date, time with
  | some _, some t => Except.ok (t / 3600 % 24)
  | _, _ => Except.error concatParseError

/-- Dynamic content of one cell of the `Time` column: raw spreadsheet
text denoting a time-of-day, a `datetime.time` object (what
`pd.to_datetime(...).dt.time` produces), or absent (`NaN`/`NaT`). -/
inductive TimeCell where
  | text (t : Nat)
  | tod (t : Nat)
  | absent
deriving DecidableEq, Repr

/-- Error raised by `pd.to_datetime` on a `datetime.time`-typed cell. -/
def timeTypeError : String :=
  "TypeError: datetime.time is not convertible to datetime"

/-- `pd.to_datetime` applied to one `Time` cell (data_processor.py line
104): text parses to a timestamp (then `.dt.time` takes the time-of-day
object), an absent cell stays absent, but a `datetime.time` object —
which is exactly what this very step produced on the previous pass —
raises `TypeError`. -/
def toDatetimeTime : TimeCell → Except String TimeCell
  | TimeCell.text t => Except.ok (TimeCell.tod t)
  | TimeCell.absent => Except.ok TimeCell.absent
  | TimeCell.tod _ => Except.error timeTypeError

/-- The `Time`-column conversion step of `clean_data`
(data_processor.py line 104) over the whole column: pandas converts
cell-wise and raises on the first inconvertible cell. -/
def timeColumnPass (col : List TimeCell) : Except String (List TimeCell) :=
  col.mapM toDatetimeTime

/-- The per-row part of `OlaDataProcessor.clean_data` on a first pass
over a freshly loaded table: `'null'` normalization on every string
column, feature engineering (date parts, success and cancellation
flags, guarded revenue per km), and the business-logic fills.  The
numeric coercion steps are identities on this representation (cells are
already post-`to_numeric`).  Two error paths of the real code are NOT
collapsed here but modelled separately: re-running the `Time` coercion
on the `datetime.time` objects of its own output raises (see
`timeColumnPass`), and the `Hour` derivation raises on an absent date
or time (see `hourOfE` / `cleanTableE`); `cleanRow`'s `hourOf` is the
success branch of the latter. -/
def cleanRow (r : Row) : Row :=
  let st := normStr r.bookingStatus
  { bookingId := normStr r.bookingId
    customerId := normStr r.customerId
    vehicleType := normStr r.vehicleType
    bookingStatus := st
    paymentMethod := fillPay st (normStr r.paymentMethod)
    pickupLocation := normStr r.pickupLocation
    dropLocation := normStr r.dropLocation
    cancelByCustomer := normStr r.cancelByCustomer
    cancelByDriver := normStr r.cancelByDriver
    date := r.date
    time := r.time
    vTat := r.vTat
    cTat := r.cTat
    bookingValue := r.bookingValue
    rideDistance := fillDist st r.rideDistance
    driverRatings := r.driverRatings
    customerRating := r.customerRating
    year := r.date.map (fun d => d / 10000)
    month := r.date.map (fun d => d / 100 % 100)
    day := r.date.map (fun d => d % 100)
    weekday := r.date.map (fun d => d % 7)
    hour := hourOf r.date r.time
    isSuccessful := if st = some "Success" then 1 else 0
    isCustomerCancel := if optContains st "Customer" then 1 else 0
    isDriverCancel := if optContains st "Driver" then 1 else 0
    revenuePerKm := revOf st r.bookingValue r.rideDistance }

/-- The row-removal predicate of `clean_data` step 5: keep a row iff
`(Booking_Value >= 0) | isna` and `(Ride_Distance >= 0) | isna`. -/
def keepRow (r : Row) : Bool :=
  (match r.bookingValue with
   | some v => decide (0 ≤ v)
   | none => true) &&
  (match r.rideDistance with
   | some d => decide (0 ≤ d)
   | none => true)

/-- The whole cleaning transformation of `OlaDataProcessor.clean_data`:
per-row normalization / derivation / fills, then removal of rows with a
present negative booking value or ride distance. -/
def cleanTable (t : List Row) : List Row :=
  (t.map cleanRow).filter keepRow

/-- `removed_count` of `clean_data`: the number of rows dropped by the
validation filter. -/
def droppedCount (t : List Row) : Nat :=
  ((t.map cleanRow).filter (fun r => !keepRow r)).length

/-- `OlaDataProcessor.clean_data` with the failing `Hour` derivation
modelled explicitly (data_processor.py lines 120-121): the hour column
is computed for every row before the fills and the removal step, and
`pd.to_datetime` (default `errors='raise'`) raises on the first row
whose date or time is absent — in that case cleaning aborts and no
cleaned table is produced.  When every row's date and time are present
the run completes and yields `cleanTable t`. -/
def cleanTableE (t : List Row) : Except String (List Row) :=
  match t.mapM (fun r => hourOfE r.date r.time) with
  | Except.error e => Except.error e
  | Except.ok _ => Except.ok (cleanTable t)

/-- A row for which `clean_data` step 5 fires: booking value or ride
distance present and negative. -/
def badRow (r : Row) : Prop :=
  (∃ v, r.bookingValue = some v ∧ v < 0) ∨ (∃ d, r.rideDistance = some d ∧ d < 0)


/-- SQL `AVG(x)` over a column: NULLs are ignored; NULL when no non-NULL
input exists. -/
def optAvg (xs : List (Option ℚ)) : Option ℚ :=
  let vs := xs.filterMap id
  if vs.length = 0 then none else some (vs.sum / vs.length)

/-- SQL `SUM(x)` over a column: NULLs are ignored; NULL when no non-NULL
input exists. -/
def optSum (xs : List (Option ℚ)) : Option ℚ :=
  let vs := xs.filterMap id
  if vs.length = 0 then none else some vs.sum

/-- SQLite `ROUND(q, 2)`: round to 2 decimal places, halves away from
zero. -/
def round2 (q : ℚ) : ℚ :=
  if 0 ≤ q then ((⌊q * 100 + 1 / 2⌋ : ℤ) : ℚ) / 100
  else -(((⌊-q * 100 + 1 / 2⌋ : ℤ) : ℚ) / 100)

/-- The `vehicle_summary` row schema of
`OlaDataProcessor._create_summary_tables` (no rounding in that variant). -/
structure VehicleAggDP where
  vehicleType : Option String
  totalBookings : Nat
  successfulBookings : Nat
  avgBookingValue : Option ℚ
  totalRevenue : Option ℚ
  avgDistance : Option ℚ
  totalDistance : Option ℚ
  avgDriverRating : Option ℚ
  avgCustomerRating : Option ℚ
deriving DecidableEq, Repr

/-- Grouping keys of `GROUP BY Vehicle_Type` (SQL groups NULL keys
together), in first appearance order. -/
def vehicleKeys (t : List Row) : List (Option String) :=
  (t.map (fun r => r.vehicleType)).dedup

/-- The rows of one `Vehicle_Type` group. -/
def vehicleGroup (t : List Row) (k : Option String) : List Row :=
  t.filter (fun r => decide (r.vehicleType = k))

/-- One `vehicle_summary` row of `data_processor.py`: `COUNT(*)`,
`SUM(Is_Successful)`, and plain (unconditional) `AVG` / `SUM` over the
whole group. -/
def vehicleAggDPOf (k : Option String) (g : List Row) : VehicleAggDP :=
  { vehicleType := k
    totalBookings := g.length
    successfulBookings := (g.map (fun r => r.isSuccessful)).sum
    avgBookingValue := optAvg (g.map (fun r => r.bookingValue))
    totalRevenue := optSum (g.map (fun r => r.bookingValue))
    avgDistance := optAvg (g.map (fun r => r.rideDistance))
    totalDistance := optSum (g.map (fun r => r.rideDistance))
    avgDriverRating := optAvg (g.map (fun r => r.driverRatings))
    avgCustomerRating := optAvg (g.map (fun r => r.customerRating)) }

/-- The `vehicle_summary` table built by
`OlaDataProcessor._create_summary_tables`. -/
def vehicleSummaryDP (t : List Row) : List VehicleAggDP :=
  (vehicleKeys t).map (fun k => vehicleAggDPOf k (vehicleGroup t k))

/-- `CASE WHEN Is_Successful = 1 THEN x END` (NULL otherwise). -/
def caseSucc (r : Row) (x : Option ℚ) : Option ℚ :=
  if r.isSuccessful = 1 then x else none

/-- `CASE WHEN Is_Successful = 1 THEN x ELSE 0 END`. -/
def caseSucc0 (r : Row) (x : Option ℚ) : Option ℚ :=
  if r.isSuccessful = 1 then x else some 0

/-- The `vehicle_summary` row schema of `run_project.create_summary_tables`
(rounded, success-conditioned aggregates except `Avg_Booking_Value`). -/
structure VehicleAggRP where
  vehicleType : Option String
  totalBookings : Nat
  successfulBookings : Nat
  avgBookingValue : Option ℚ
  totalRevenue : Option ℚ
  avgDistance : Option ℚ
  totalDistance : Option ℚ
  avgDriverRating : Option ℚ
  avgCustomerRating : Option ℚ
deriving DecidableEq, Repr

/-- One `vehicle_summary` row of `run_project.py`: note
`ROUND(AVG(Booking_Value), 2)` is NOT conditioned on success, while the
other value aggregates are `CASE WHEN Is_Successful = 1 ...`. -/
def vehicleAggRPOf (k : Option String) (g : List Row) : VehicleAggRP :=
  { vehicleType := k
    totalBookings := g.length
    successfulBookings := (g.map (fun r => r.isSuccessful)).sum
    avgBookingValue := (optAvg (g.map (fun r => r.bookingValue))).map round2
    totalRevenue := (optSum (g.map (fun r => caseSucc0 r r.bookingValue))).map round2
    avgDistance := (optAvg (g.map (fun r => caseSucc r r.rideDistance))).map round2
    totalDistance := (optSum (g.map (fun r => caseSucc0 r r.rideDistance))).map round2
    avgDriverRating := (optAvg (g.map (fun r => caseSucc r r.driverRatings))).map round2
    avgCustomerRating := (optAvg (g.map (fun r => caseSucc r r.customerRating))).map round2 }

/-- The `vehicle_summary` table built by `run_project.create_summary_tables`. -/
def vehicleSummaryRP (t : List Row) : List VehicleAggRP :=
  (vehicleKeys t).map (fun k => vehicleAggRPOf k (vehicleGroup t k))

/-- The `daily_summary` row schema of `data_processor.py`. -/
structure DailyAggDP where
  date : Option Nat
  totalBookings : Nat
  successfulBookings : Nat
  totalRevenue : Option ℚ
  avgBookingValue : Option ℚ
  totalDistance : Option ℚ
deriving DecidableEq, Repr

def dailyKeys (t : List Row) : List (Option Nat) :=
  (t.map (fun r => r.date)).dedup

def dailyGroup (t : List Row) (k : Option Nat) : List Row :=
  t.filter (fun r => decide (r.date = k))

def dailyAggDPOf (k : Option Nat) (g : List Row) : DailyAggDP :=
  { date := k
    totalBookings := g.length
    successfulBookings := (g.map (fun r => r.isSuccessful)).sum
    totalRevenue := optSum (g.map (fun r => r.bookingValue))
    avgBookingValue := optAvg (g.map (fun r => r.bookingValue))
    totalDistance := optSum (g.map (fun r => r.rideDistance)) }

/-- The `daily_summary` table built by
`OlaDataProcessor._create_summary_tables`. -/
def dailySummaryDP (t : List Row) : List DailyAggDP :=
  (dailyKeys t).map (fun k => dailyAggDPOf k (dailyGroup t k))

/-- The `customer_summary` row schema of `data_processor.py`. -/
structure CustomerAggDP where
  customerId : Option String
  totalBookings : Nat
  successfulBookings : Nat
  totalSpent : Option ℚ
  avgRatingGiven : Option ℚ
  lastBookingDate : Option Nat
deriving DecidableEq, Repr

def custKeys (t : List Row) : List (Option String) :=
  (t.map (fun r => r.customerId)).dedup

def custGroup (t : List Row) (k : Option String) : List Row :=
  t.filter (fun r => decide (r.customerId = k))

def customerAggDPOf (k : Option String) (g : List Row) : CustomerAggDP :=
  { customerId := k
    totalBookings := g.length
    successfulBookings := (g.map (fun r => r.isSuccessful)).sum
    totalSpent := optSum (g.map (fun r => r.bookingValue))
    avgRatingGiven := optAvg (g.map (fun r => r.customerRating))
    lastBookingDate := (g.filterMap (fun r => r.date)).max? }

/-- The `customer_summary` table built by
`OlaDataProcessor._create_summary_tables`. -/
def customerSummaryDP (t : List Row) : List CustomerAggDP :=
  (custKeys t).map (fun k => customerAggDPOf k (custGroup t k))

/-- The persisted SQLite store: a table that may or may not exist, for
each of the four table names the pipeline uses. -/
structure DBState where
  rides : Option (List Row)
  vehicleSummary : Option (List VehicleAggDP)
  dailySummary : Option (List DailyAggDP)
  customerSummary : Option (List CustomerAggDP)
deriving DecidableEq, Repr

/-- `OlaDataProcessor.create_database`: `to_sql('rides', ...,
if_exists='replace')` overwrites the fact table, then each summary table
is built with `CREATE TABLE IF NOT EXISTS ... AS SELECT ... FROM rides`,
which is a no-op when the table already exists. -/
def createDatabaseDP (clean : List Row) (s : DBState) : DBState :=
  { rides := some clean
    vehicleSummary :=
      match s.vehicleSummary with
      | some old => some old
      | none => some (vehicleSummaryDP clean)
    dailySummary :=
      match s.dailySummary with
      | some old => some old
      | none => some (dailySummaryDP clean)
    customerSummary :=
      match s.customerSummary with
      | some old => some old
      | none => some (customerSummaryDP clean) }

/-- `Booking_Status = 'Success'` — the success test used by the
`BusinessQueries` SQL (as opposed to the derived `Is_Successful` flag). -/
def isSuccessStatus (r : Row) : Bool :=
  decide (r.bookingStatus = some "Success")

/-- One result row of `BusinessQueries.get_top_customers`. -/
structure CustAggQ where
  customerId : Option String
  totalBookings : Nat
  successfulBookings : Nat
  totalSpent : Option ℚ
  avgBookingValue : Option ℚ
  successRate : ℚ
deriving DecidableEq, Repr

/-- One aggregated row of the top-customers query (before
`HAVING` / `ORDER BY` / `LIMIT`). -/
def custAggQOf (k : Option String) (g : List Row) : CustAggQ :=
  { customerId := k
    totalBookings := g.length
    successfulBookings := (g.filter isSuccessStatus).length
    totalSpent :=
      (optSum (g.map (fun r => if isSuccessStatus r then r.bookingValue else some 0))).map round2
    avgBookingValue :=
      (optAvg (g.map (fun r => if isSuccessStatus r then r.bookingValue else none))).map round2
    successRate :=
      round2 (((g.filter isSuccessStatus).length : ℚ) * 100 / (g.length : ℚ)) }

/-- `HAVING Total_Spent > 0` (SQL three-valued logic: a NULL total is not
`> 0` and the group is dropped). -/
def spentPos (a : CustAggQ) : Bool :=
  match a.totalSpent with
  | some v => decide (0 < v)
  | none => false

/-- The multiset of rows the top-customers query produces before
`ORDER BY`/`LIMIT`: `GROUP BY Customer_ID` plus the `HAVING` filter. -/
def topCustomerAggs (t : List Row) : List CustAggQ :=
  ((custKeys t).map (fun k => custAggQOf k (custGroup t k))).filter spentPos

/-- Sort key of `ORDER BY Total_Spent DESC`.  After the `HAVING` filter
every `Total_Spent` is present, so the default is immaterial. -/
def spentVal (a : CustAggQ) : ℚ :=
  a.totalSpent.getD 0

/-- The comparison of `ORDER BY Total_Spent DESC`: `a` may come before
`b` iff `b`'s total spend does not exceed `a`'s.  There is no secondary
sort key in the query text. -/
def spentGE (a b : CustAggQ) : Prop :=
  spentVal b ≤ spentVal a

instance : DecidableRel spentGE :=
  fun a b => inferInstanceAs (Decidable (spentVal b ≤ spentVal a))

instance : IsTotal CustAggQ spentGE :=
  ⟨fun a b => le_total (spentVal b) (spentVal a)⟩

instance : IsTrans CustAggQ spentGE :=
  ⟨fun _ _ _ h1 h2 => le_trans h2 h1⟩

/-- `LIMIT ?` with SQLite semantics: a negative limit means no limit. -/
def limitTake (limit : Int) (l : List CustAggQ) : List CustAggQ :=
  if limit < 0 then l else l.take limit.toNat

/-- The result relation of `BusinessQueries.get_top_customers`: `out` is
a possible result for the given rides table and limit iff it is a
`Total_Spent`-descending permutation of the aggregate rows truncated at
the limit.  The query text orders by `Total_Spent DESC` only, so the
relative order of equal-spend customers is unconstrained. -/
def isTopResult (t : List Row) (limit : Int) (out : List CustAggQ) : Prop :=
  ∃ p : List CustAggQ, (topCustomerAggs t).Perm p ∧
    p.Pairwise spentGE ∧ out = limitTake limit p

/-- A pandas float-division result: rationals extended with the IEEE
specials that `Series / Series` can produce. -/
inductive PandasDiv where
  | q (x : ℚ)
  | posInf
  | negInf
  | nan
deriving DecidableEq, Repr

/-- `df['Booking_Value'] / df['Ride_Distance']` as computed by
`run_project.process_data` — no guard: division by zero yields `±inf`
(or `NaN` for `0/0`), an absent operand yields `NaN`, and the division is
performed for every row regardless of booking status. -/
def revenuePerKmRP (v d : Option ℚ) : PandasDiv :=
  match v, d with
  | some x, some y =>
    if y = 0 then
      if 0 < x then PandasDiv.posInf
      else if x < 0 then PandasDiv.negInf
      else PandasDiv.nan
    else PandasDiv.q (x / y)
  | _, _ => PandasDiv.nan

/-- A raw record template for the concrete evaluations below: only the
fields relevant to the claims vary, the rest are absent. -/
def mkRaw (cid vt st : Option String) (v d : Option ℚ) : Row :=
  { bookingId := none
    customerId := cid
    vehicleType := vt
    bookingStatus := st
    paymentMethod := none
    pickupLocation := none
    dropLocation := none
    cancelByCustomer := none
    cancelByDriver := none
    date := some 20240701
    time := some 36000
    vTat := none
    cTat := none
    bookingValue := v
    rideDistance := d
    driverRatings := none
    customerRating := none
    year := none
    month := none
    day := none
    weekday := none
    hour := none
    isSuccessful := 0
    isCustomerCancel := 0
    isDriverCancel := 0
    revenuePerKm := none }

/-- A successful booking: customer C1, vehicle Auto, value 100, distance 10. -/
def rowSuccess : Row :=
  mkRaw (some "C1") (some "Auto") (some "Success") (some 100) (some 10)

/-- A customer-cancelled booking: customer C2, vehicle Auto, value 50,
absent distance. -/
def rowCancel : Row :=
  mkRaw (some "C2") (some "Auto") (some "Canceled by Customer") (some 50) none

/-- A second successful booking of value 100 (customer C2), for the
equal-spend tie scenario. -/
def rowB100 : Row :=
  mkRaw (some "C2") (some "Auto") (some "Success") (some 100) (some 10)

/-- A successful booking of value 50 (customer C2). -/
def rowB50 : Row :=
  mkRaw (some "C2") (some "Auto") (some "Success") (some 50) (some 5)

/-- A cleaned table with one successful and one cancelled booking of the
same vehicle type. -/
def ridesPair : List Row :=
  cleanTable [rowSuccess, rowCancel]

/-- A cleaned table with two customers of equal total spend. -/
def ridesTie : List Row :=
  cleanTable [rowSuccess, rowB100]

/-- A cleaned table with two customers of distinct total spend. -/
def ridesDistinct : List Row :=
  cleanTable [rowSuccess, rowB50]

/-- A driver-cancelled booking with a positive distance and value. -/
def rowDriverCancel : Row :=
  mkRaw (some "C3") (some "Bike") (some "Canceled by Driver") (some 100) (some 5)

/-- A successful booking with zero recorded distance. -/
def rowZeroDist : Row :=
  mkRaw (some "C4") (some "Bike") (some "Success") (some 100) (some 0)

/-- A booking with an absent booking status. -/
def rowNoStatus : Row :=
  mkRaw (some "C5") (some "Bike") none (some 10) (some 2)

/-- A booking with an absent time-of-day (and nonnegative value and
distance): the `Hour` derivation raises on it. -/
def rowNoTime : Row :=
  { mkRaw (some "C6") (some "Auto") (some "Success") (some 10) (some 2) with
    time := none }

/-- A stale `vehicle_summary` row left over from an earlier pipeline run. -/
def oldVehicleAgg : VehicleAggDP :=
  { vehicleType := some "Stale"
    totalBookings := 99
    successfulBookings := 1
    avgBookingValue := none
    totalRevenue := none
    avgDistance := none
    totalDistance := none
    avgDriverRating := none
    avgCustomerRating := none }

/-- A store whose `vehicle_summary` table already exists (from a prior
run) while the other summary tables do not. -/
def staleState : DBState :=
  { rides := some []
    vehicleSummary := some [oldVehicleAgg]
    dailySummary := none
    customerSummary := none }

/-- A store holding one ride from a prior run and no summary tables. -/
def priorState : DBState :=
  { rides := some [cleanRow rowSuccess]
    vehicleSummary := none
    dailySummary := none
    customerSummary := none }

theorem normStr_idem (s : Option String) : normStr (normStr s) = normStr s := by
  cases s with
  | none => rfl
  | some v =>
    simp only [normStr]
    by_cases h : v = "null" <;> simp [h]

theorem fillDist_some (st : Option String) (d : ℚ) :
    fillDist st (some d) = some d := by
  simp only [fillDist]
  split <;> simp [Option.getD]

theorem fillDist_idem (st : Option String) (d : Option ℚ) :
    fillDist st (fillDist st d) = fillDist st d := by
  by_cases h : st = some "Success"
  · simp [fillDist, h]
  · simp [fillDist, h]

theorem revOf_fill (st : Option String) (v d : Option ℚ) :
    revOf st v (fillDist st d) = revOf st v d := by
  by_cases h : st = some "Success"
  · simp [fillDist, h]
  · simp only [fillDist, if_neg h]
    cases d with
    | none => simp [revOf, h]
    | some x => simp [revOf, h]

theorem fillPay_norm (st p : Option String) :
    fillPay st (normStr (fillPay st (normStr p))) = fillPay st (normStr p) := by
  by_cases h : st = some "Success" ∧ normStr p = none
  · simp only [fillPay, if_pos h]
    have hcash : normStr (some "Cash") = some "Cash" := by
      simp [normStr]
    rw [hcash]
    have h2 : ¬ (st = some "Success" ∧ (some "Cash" : Option String) = none) := by
      intro hc
      exact Option.noConfusion hc.2
    simp only [fillPay, if_neg h2]
  · simp only [fillPay, if_neg h, normStr_idem, if_neg h]

theorem cleanRow_idem (r : Row) : cleanRow (cleanRow r) = cleanRow r := by
  simp only [cleanRow, normStr_idem, fillPay_norm, fillDist_idem, revOf_fill]

theorem map_eq_self_of_fixed {α : Type} (f : α → α) :
    ∀ (l : List α), (∀ x ∈ l, f x = x) → l.map f = l := by
  intro l
  induction l with
  | nil => intro _; rfl
  | cons a as ih =>
    intro h
    simp only [List.map_cons]
    rw [h a (List.mem_cons_self a as), ih (fun x hx => h x (List.mem_cons_of_mem a hx))]

theorem mem_cleanTable_image {r : Row} {t : List Row} (h : r ∈ cleanTable t) :
    ∃ y ∈ t, cleanRow y = r := by
  have h1 : r ∈ t.map cleanRow := (List.mem_filter.mp h).1
  exact List.mem_map.mp h1

theorem mem_cleanTable_keep {r : Row} {t : List Row} (h : r ∈ cleanTable t) :
    keepRow r = true := (List.mem_filter.mp h).2

theorem cleanRow_fixed_on_cleanTable {r : Row} {t : List Row}
    (h : r ∈ cleanTable t) : cleanRow r = r := by
  obtain ⟨y, _, hy⟩ := mem_cleanTable_image h
  rw [← hy, cleanRow_idem]

theorem cleanTable_idem (t : List Row) : cleanTable (cleanTable t) = cleanTable t := by
  unfold cleanTable
  rw [map_eq_self_of_fixed cleanRow ((t.map cleanRow).filter keepRow)
    (fun x hx => cleanRow_fixed_on_cleanTable hx)]
  rw [List.filter_filter]
  apply List.filter_congr
  intro x _
  simp

theorem keep_cleanRow_iff (r : Row) : keepRow (cleanRow r) = true ↔ ¬ badRow r := by
  have hval : (cleanRow r).bookingValue = r.bookingValue := rfl
  have hdist : (cleanRow r).rideDistance = fillDist (normStr r.bookingStatus) r.rideDistance := rfl
  simp only [keepRow, badRow, hval, hdist, Bool.and_eq_true]
  constructor
  · rintro ⟨h1, h2⟩ (⟨v, hv, hvneg⟩ | ⟨d, hd, hdneg⟩)
    · rw [hv] at h1
      simp only [decide_eq_true_eq] at h1
      exact absurd hvneg (not_lt.mpr h1)
    · rw [hd, fillDist_some] at h2
      simp only [decide_eq_true_eq] at h2
      exact absurd hdneg (not_lt.mpr h2)
  · intro hbad
    constructor
    · cases hv : r.bookingValue with
      | none => rfl
      | some v =>
        simp only [decide_eq_true_eq]
        by_contra hneg
        exact hbad (Or.inl ⟨v, hv, not_le.mp hneg⟩)
    · cases hd : r.rideDistance with
      | none =>
        by_cases hst : normStr r.bookingStatus = some "Success"
        · simp [fillDist, hst]
        · simp [fillDist, hst, Option.getD]
      | some d =>
        rw [fillDist_some]
        simp only [decide_eq_true_eq]
        by_contra hneg
        exact hbad (Or.inr ⟨d, hd, not_le.mp hneg⟩)

theorem length_filter_partition {α : Type} (p : α → Bool) :
    ∀ (l : List α), (l.filter p).length + (l.filter (fun a => !p a)).length = l.length := by
  intro l
  induction l with
  | nil => rfl
  | cons a as ih =>
    by_cases h : p a = true
    · simp [List.filter_cons, h]
      omega
    · simp only [Bool.not_eq_true] at h
      simp [List.filter_cons, h]
      omega

theorem sum_group_lengths {α κ : Type} [DecidableEq κ] (f : α → κ) :
    ∀ (ks : List κ) (t : List α), ks.Nodup → (∀ a ∈ t, f a ∈ ks) →
      (ks.map (fun k => (t.filter (fun a => decide (f a = k))).length)).sum = t.length := by
  intro ks
  induction ks with
  | nil =>
    intro t _ hmem
    have ht : t = [] := List.eq_nil_iff_forall_not_mem.mpr
      (fun a ha => (List.not_mem_nil (f a)) (hmem a ha))
    simp [ht]
  | cons k ks ih =>
    intro t hnd hmem
    have hk_not : k ∉ ks := (List.nodup_cons.mp hnd).1
    have hnd' : ks.Nodup := (List.nodup_cons.mp hnd).2
    set t2 := t.filter (fun a => !(decide (f a = k))) with ht2
    have hmem2 : ∀ a ∈ t2, f a ∈ ks := by
      intro a ha
      have h1 := List.mem_filter.mp ha
      have h2 : f a ∈ k :: ks := hmem a h1.1
      have h3 : ¬ f a = k := by
        have := h1.2
        simpa using this
      rcases List.mem_cons.mp h2 with h | h
      · exact absurd h h3
      · exact h
    have hrw : ∀ k' ∈ ks,
        t.filter (fun a => decide (f a = k')) = t2.filter (fun a => decide (f a = k')) := by
      intro k' hk'
      rw [ht2, List.filter_filter]
      apply List.filter_congr
      intro a _
      by_cases h : f a = k'
      · have hkk : ¬ k' = k := fun hc => hk_not (hc ▸ hk')
        have hfa : ¬ f a = k := by
          rw [h]; exact hkk
        simp [h, hkk, hfa]
      · simp [h]
    have hmapeq :
        ks.map (fun k' => (t.filter (fun a => decide (f a = k'))).length) =
        ks.map (fun k' => (t2.filter (fun a => decide (f a = k'))).length) := by
      apply List.map_congr_left
      intro k' hk'
      rw [hrw k' hk']
    have hsum := ih t2 hnd' hmem2
    have hpart := length_filter_partition (fun a => decide (f a = k)) t
    simp only [List.map_cons, List.sum_cons, hmapeq, hsum]
    rw [← ht2] at hpart
    omega

theorem cleanRow_succ_le_one (r : Row) : (cleanRow r).isSuccessful ≤ 1 := by
  simp only [cleanRow]
  split <;> simp

theorem sum_flags_le (g : List Row) (h : ∀ r ∈ g, r.isSuccessful ≤ 1) :
    (g.map (fun r => r.isSuccessful)).sum ≤ g.length := by
  induction g with
  | nil => simp
  | cons a as ih =>
    simp only [List.map_cons, List.sum_cons, List.length_cons]
    have ha := h a (List.mem_cons_self a as)
    have has := ih (fun r hr => h r (List.mem_cons_of_mem a hr))
    omega

theorem filterMap_id_map {α β : Type} (f : α → Option β) (l : List α) :
    (l.map f).filterMap id = l.filterMap f := by
  induction l with
  | nil => rfl
  | cons a as ih => simp [List.filterMap_cons, ih]

theorem filterMap_caseSucc (fld : Row → Option ℚ) :
    ∀ g : List Row,
      g.filterMap (fun r => caseSucc r (fld r)) =
        (g.filter (fun r => decide (r.isSuccessful = 1))).filterMap fld := by
  intro g
  induction g with
  | nil => rfl
  | cons a as ih =>
    rw [List.filterMap_cons, List.filter_cons, ih]
    by_cases h : a.isSuccessful = 1
    · have hc : caseSucc a (fld a) = fld a := if_pos h
      have hd : decide (a.isSuccessful = 1) = true := decide_eq_true h
      rw [hc, hd, if_pos rfl, List.filterMap_cons]
    · have hc : caseSucc a (fld a) = none := if_neg h
      have hd : decide (a.isSuccessful = 1) = false := decide_eq_false h
      rw [hc, hd]
      simp

theorem optAvg_caseSucc (fld : Row → Option ℚ) (g : List Row) :
    optAvg (g.map (fun r => caseSucc r (fld r))) =
      optAvg ((g.filter (fun r => decide (r.isSuccessful = 1))).map fld) := by
  unfold optAvg
  rw [filterMap_id_map, filterMap_id_map, filterMap_caseSucc]

theorem caseSucc0_filterMap (fld : Row → Option ℚ) :
    ∀ g : List Row, (∀ r ∈ g, r.isSuccessful = 1 → (fld r).isSome = true) →
      g.filterMap (fun r => caseSucc0 r (fld r)) =
        g.map (fun r => if r.isSuccessful = 1 then (fld r).getD 0 else 0) := by
  intro g
  induction g with
  | nil => intro _; rfl
  | cons a as ih =>
    intro h
    have has := ih (fun r hr => h r (List.mem_cons_of_mem a hr))
    rw [List.filterMap_cons, List.map_cons, has]
    by_cases hf : a.isSuccessful = 1
    · obtain ⟨x, hx⟩ := Option.isSome_iff_exists.mp (h a (List.mem_cons_self a as) hf)
      have hc : caseSucc0 a (fld a) = some x := by
        rw [caseSucc0, if_pos hf, hx]
      have hh : (if a.isSuccessful = 1 then (fld a).getD 0 else 0) = x := by
        rw [if_pos hf, hx]
        rfl
      rw [hc, hh]
    · have hc : caseSucc0 a (fld a) = some 0 := if_neg hf
      have hh : (if a.isSuccessful = 1 then (fld a).getD 0 else 0) = 0 := if_neg hf
      rw [hc, hh]

theorem sum_ite_flag (h : Row → ℚ) :
    ∀ g : List Row,
      (g.map (fun r => if r.isSuccessful = 1 then h r else 0)).sum =
        ((g.filter (fun r => decide (r.isSuccessful = 1))).map h).sum := by
  intro g
  induction g with
  | nil => rfl
  | cons a as ih =>
    by_cases hf : a.isSuccessful = 1
    · simp [List.filter_cons, hf, ih]
    · simp [List.filter_cons, hf, ih]

theorem optSum_caseSucc0 (fld : Row → Option ℚ) (g : List Row) (hg : g ≠ [])
    (hp : ∀ r ∈ g, r.isSuccessful = 1 → (fld r).isSome = true) :
    optSum (g.map (fun r => caseSucc0 r (fld r))) =
      some (((g.filter (fun r => decide (r.isSuccessful = 1))).map
        (fun r => (fld r).getD 0)).sum) := by
  unfold optSum
  rw [filterMap_id_map, caseSucc0_filterMap fld g hp]
  have hlen : (g.map (fun r => if r.isSuccessful = 1 then (fld r).getD 0 else 0)).length =
      g.length := List.length_map _ _
  have hne : ¬ (g.map (fun r => if r.isSuccessful = 1 then (fld r).getD 0 else 0)).length = 0 := by
    rw [hlen]
    exact fun hc => hg (List.length_eq_zero.mp hc)
  simp only [hne, if_false]
  rw [sum_ite_flag (fun r => (fld r).getD 0) g]

theorem keepRow_nonneg (x : Row) (h : keepRow x = true) :
    (∀ v, x.bookingValue = some v → 0 ≤ v) ∧ (∀ d, x.rideDistance = some d → 0 ≤ d) := by
  unfold keepRow at h
  rw [Bool.and_eq_true] at h
  constructor
  · intro v hv
    rw [hv] at h
    simpa using h.1
  · intro d hd
    rw [hd] at h
    simpa using h.2

theorem cleanRow_revenue_none (r : Row)
    (h : ¬ normStr r.bookingStatus = some "Success" ∨ r.rideDistance = none ∨
      ∃ d, r.rideDistance = some d ∧ d ≤ 0) :
    (cleanRow r).revenuePerKm = none := by
  have hrev : (cleanRow r).revenuePerKm =
      revOf (normStr r.bookingStatus) r.bookingValue r.rideDistance := rfl
  rw [hrev]
  rcases h with h | h | ⟨d, hd, hdle⟩
  · cases hrd : r.rideDistance with
    | none => rfl
    | some d =>
      simp [revOf, h]
  · simp [revOf, h]
  · rw [hd]
    have hnc : ¬ (0 < d ∧ normStr r.bookingStatus = some "Success") :=
      fun hc => absurd hc.1 (not_lt.mpr hdle)
    simp [revOf, hnc]

theorem cleanRow_revenue_eq (r : Row) (d : ℚ) (hd : r.rideDistance = some d)
    (hpos : 0 < d) (hs : normStr r.bookingStatus = some "Success") :
    (cleanRow r).revenuePerKm = r.bookingValue.map (fun x => x / d) := by
  have hrev : (cleanRow r).revenuePerKm =
      revOf (normStr r.bookingStatus) r.bookingValue r.rideDistance := rfl
  rw [hrev, hd]
  simp [revOf, hpos, hs]

/-- C1: the derived revenue-per-distance value must be absent whenever
ride distance is not positive or the success flag is unset, and never
raise a division error.  `OlaDataProcessor.clean_data` satisfies this
(the `np.where` guard), but `run_project.process_data` divides
unconditionally: for a driver-cancelled row with value 100 and distance 5
it produces a present value 20, and for a successful row with distance 0
it produces `+inf` — both places where the claim requires absence. -/
theorem claim_C1_revenue_guard :
    (cleanRow rowDriverCancel).revenuePerKm = none ∧
    (cleanRow rowZeroDist).revenuePerKm = none ∧
    revenuePerKmRP rowDriverCancel.bookingValue rowDriverCancel.rideDistance =
      PandasDiv.q 20 ∧
    revenuePerKmRP rowZeroDist.bookingValue rowZeroDist.rideDistance =
      PandasDiv.posInf := by
  refine ⟨?_, ?_, ?_, ?_⟩
  · exact cleanRow_revenue_none rowDriverCancel (Or.inl (by simp [rowDriverCancel, mkRaw, normStr]))
  · exact cleanRow_revenue_none rowZeroDist (Or.inr (Or.inr ⟨0, rfl, le_refl 0⟩))
  · norm_num [revenuePerKmRP, rowDriverCancel, mkRaw]
  · norm_num [revenuePerKmRP, rowZeroDist, mkRaw]

/-- C2: the claim states that re-running the cleaning on its own output
yields an identical table.  The value-level transformation is indeed
idempotent (third conjunct), but the program's second pass crashes
before it can reproduce anything: the first pass turns the `Time`
column's text cells into `datetime.time` objects (first conjunct), and
re-running the `pd.to_datetime` coercion of data_processor.py line 104
on those very objects raises `TypeError` (second conjunct) — so
`clean_data` applied to its own output raises instead of returning an
identical table, against the spec's explicit idempotence contract. -/
theorem claim_C2_second_pass_crashes :
    timeColumnPass [TimeCell.text 36000, TimeCell.absent] =
      Except.ok [TimeCell.tod 36000, TimeCell.absent] ∧
    timeColumnPass [TimeCell.tod 36000, TimeCell.absent] =
      Except.error timeTypeError ∧
    cleanTable (cleanTable [rowSuccess]) = cleanTable [rowSuccess] :=
  ⟨rfl, rfl, cleanTable_idem [rowSuccess]⟩

/-- C4 counterexample: with a `vehicle_summary` left over from a prior
run, `create_database` (`CREATE TABLE IF NOT EXISTS`) keeps the stale
rows, which differ from the summary of the current cleaned table — so the
aggregate tables are not a function of the current cleaned table alone
and prior rows do survive. -/
theorem claim_C4_counterexample :
    (createDatabaseDP (cleanTable [rowSuccess]) staleState).vehicleSummary =
      some [oldVehicleAgg] ∧
    some [oldVehicleAgg] ≠ some (vehicleSummaryDP (cleanTable [rowSuccess])) := by
  refine ⟨rfl, ?_⟩
  intro h
  have h2 : [oldVehicleAgg] = vehicleSummaryDP (cleanTable [rowSuccess]) :=
    Option.some.inj h
  have h3 := congrArg (fun l => l.map (fun a => a.totalBookings)) h2
  simp +decide [oldVehicleAgg, vehicleSummaryDP, vehicleKeys, vehicleGroup, vehicleAggDPOf,
    cleanTable, cleanRow, rowSuccess, mkRaw, normStr, keepRow, fillDist, fillPay,
    revOf, hourOf, optContains, strContains, charsHave, charsStart] at h3

/-- C4 amended: each run replaces the `rides` fact table with the current
cleaned table, but each of the three summary tables is built from the
current cleaned table only when it does not already exist; when it
exists, its prior contents survive unchanged. -/
theorem claim_C4_amended :
    ∀ (clean : List Row) (s : DBState),
      (createDatabaseDP clean s).rides = some clean ∧
      (s.vehicleSummary = none →
        (createDatabaseDP clean s).vehicleSummary = some (vehicleSummaryDP clean)) ∧
      (∀ old, s.vehicleSummary = some old →
        (createDatabaseDP clean s).vehicleSummary = some old) ∧
      (s.dailySummary = none →
        (createDatabaseDP clean s).dailySummary = some (dailySummaryDP clean)) ∧
      (∀ old, s.dailySummary = some old →
        (createDatabaseDP clean s).dailySummary = some old) ∧
      (s.customerSummary = none →
        (createDatabaseDP clean s).customerSummary = some (customerSummaryDP clean)) ∧
      (∀ old, s.customerSummary = some old →
        (createDatabaseDP clean s).customerSummary = some old) := by
  intro clean s
  refine ⟨rfl, ?_, ?_, ?_, ?_, ?_, ?_⟩
  · intro h
    simp [createDatabaseDP, h]
  · intro old h
    simp [createDatabaseDP, h]
  · intro h
    simp [createDatabaseDP, h]
  · intro old h
    simp [createDatabaseDP, h]
  · intro h
    simp [createDatabaseDP, h]
  · intro old h
    simp [createDatabaseDP, h]

theorem claim_C4_witness :
    (createDatabaseDP (cleanTable [rowSuccess]) priorState).vehicleSummary =
      some (vehicleSummaryDP (cleanTable [rowSuccess])) :=
  (claim_C4_amended (cleanTable [rowSuccess]) priorState).2.1 rfl

theorem cleanTableE_ok_removal :
    ∀ (t out : List Row), cleanTableE t = Except.ok out →
      out = cleanTable t ∧
      (∀ r ∈ t, (keepRow (cleanRow r) = true ↔ ¬ badRow r)) ∧
      (∀ x ∈ out,
        (∀ v, x.bookingValue = some v → 0 ≤ v) ∧
        (∀ d, x.rideDistance = some d → 0 ≤ d)) ∧
      out.length + droppedCount t = t.length := by
  intro t out hok
  have hout : out = cleanTable t := by
    unfold cleanTableE at hok
    cases hm : t.mapM (fun r => hourOfE r.date r.time) with
    | error e =>
      rw [hm] at hok
      exact Except.noConfusion hok
    | ok l =>
      rw [hm] at hok
      exact (Except.ok.inj hok).symm
  subst hout
  refine ⟨rfl, fun r _ => keep_cleanRow_iff r,
    fun x hx => keepRow_nonneg x (mem_cleanTable_keep hx), ?_⟩
  unfold cleanTable droppedCount
  rw [length_filter_partition keepRow (t.map cleanRow)]
  simp

/-- C6: the claimed removal contract is preempted by a crash.  For an
input row with an absent time (and a nonnegative booking value 10 and
ride distance 2), the claim says the row passes through removal and is
counted, but the `Hour` derivation of data_processor.py lines 120-121
raises on the `NaT` concatenation before the removal step, so cleaning
aborts and produces NO cleaned table (third conjunct).  On a table whose
rows all carry a present date and time the run completes (fourth
conjunct) and kept plus dropped rows account for every input row (fifth
conjunct); the general statement of the removal semantics on completed
runs is `cleanTableE_ok_removal`. -/
theorem claim_C6_removal_vs_crash :
    rowNoTime.bookingValue = some 10 ∧
    rowNoTime.rideDistance = some 2 ∧
    cleanTableE [rowNoTime] = Except.error concatParseError ∧
    cleanTableE [rowSuccess] = Except.ok [cleanRow rowSuccess] ∧
    (cleanTable [rowSuccess]).length + droppedCount [rowSuccess] = 1 :=
  ⟨rfl, rfl, rfl, rfl, rfl⟩

/-- C10: each derived flag of a cleaned row is exactly 0 or 1, and an
absent booking status (including the textual sentinel `'null'`) makes
all three flags 0 — it never counts as a success or a cancellation. -/
theorem claim_C10_derived_flags :
    ∀ r : Row,
      ((cleanRow r).isSuccessful = 0 ∨ (cleanRow r).isSuccessful = 1) ∧
      ((cleanRow r).isCustomerCancel = 0 ∨ (cleanRow r).isCustomerCancel = 1) ∧
      ((cleanRow r).isDriverCancel = 0 ∨ (cleanRow r).isDriverCancel = 1) ∧
      ((cleanRow r).bookingStatus = none →
        (cleanRow r).isSuccessful = 0 ∧ (cleanRow r).isCustomerCancel = 0 ∧
          (cleanRow r).isDriverCancel = 0) := by
  intro r
  refine ⟨?_, ?_, ?_, ?_⟩
  · simp only [cleanRow]
    split
    · exact Or.inr rfl
    · exact Or.inl rfl
  · simp only [cleanRow]
    split
    · exact Or.inr rfl
    · exact Or.inl rfl
  · simp only [cleanRow]
    split
    · exact Or.inr rfl
    · exact Or.inl rfl
  · intro h
    have hst : normStr r.bookingStatus = none := h
    simp [cleanRow, hst, optContains]

theorem claim_C10_witness :
    (cleanRow rowNoStatus).isSuccessful = 0 ∧
    (cleanRow rowNoStatus).isCustomerCancel = 0 ∧
    (cleanRow rowNoStatus).isDriverCancel = 0 :=
  (claim_C10_derived_flags rowNoStatus).2.2.2 rfl

/-- C9: in the vehicle summary built from any cleaned table, every group
has `Successful_Bookings ≤ Total_Bookings` (the success flag of a cleaned
row is 0 or 1), and the `Total_Bookings` of all groups sum to the cleaned
table's row count (the `GROUP BY Vehicle_Type` groups partition it). -/
theorem claim_C9_aggregate_consistency :
    ∀ t0 : List Row,
      (∀ agg ∈ vehicleSummaryDP (cleanTable t0),
        agg.successfulBookings ≤ agg.totalBookings) ∧
      ((vehicleSummaryDP (cleanTable t0)).map (fun a => a.totalBookings)).sum =
        (cleanTable t0).length := by
  intro t0
  constructor
  · intro agg hagg
    obtain ⟨k, _, hAgg⟩ := List.mem_map.mp hagg
    rw [← hAgg]
    show (((vehicleGroup (cleanTable t0) k).map (fun r => r.isSuccessful)).sum ≤
      (vehicleGroup (cleanTable t0) k).length)
    apply sum_flags_le
    intro x hx
    have hxT : x ∈ cleanTable t0 := (List.mem_filter.mp hx).1
    have hfix := cleanRow_fixed_on_cleanTable hxT
    have h2 : x.isSuccessful = (cleanRow x).isSuccessful :=
      congrArg Row.isSuccessful hfix.symm
    rw [h2]
    exact cleanRow_succ_le_one x
  · unfold vehicleSummaryDP
    rw [List.map_map]
    have hcomp :
        ((fun a => a.totalBookings) ∘
          fun k => vehicleAggDPOf k (vehicleGroup (cleanTable t0) k)) =
        fun k => ((cleanTable t0).filter (fun r => decide (r.vehicleType = k))).length := rfl
    rw [hcomp]
    exact sum_group_lengths (fun r => r.vehicleType) (vehicleKeys (cleanTable t0))
      (cleanTable t0) (List.nodup_dedup _)
      (fun a ha => List.mem_dedup.mpr (List.mem_map_of_mem _ ha))

theorem claim_C9_witness :
    (vehicleAggDPOf (some "Auto")
        (vehicleGroup (cleanTable [rowSuccess]) (some "Auto"))).successfulBookings ≤
      (vehicleAggDPOf (some "Auto")
        (vehicleGroup (cleanTable [rowSuccess]) (some "Auto"))).totalBookings := by
  apply (claim_C9_aggregate_consistency [rowSuccess]).1
  have h : vehicleSummaryDP (cleanTable [rowSuccess]) =
      [vehicleAggDPOf (some "Auto") (vehicleGroup (cleanTable [rowSuccess]) (some "Auto"))] := rfl
  rw [h]
  exact List.mem_singleton.mpr rfl

/-- C3 counterexample: in the cleaned table with one successful booking
(value 100) and one cancelled booking (value 50) of the same vehicle
type, the claim predicts an average booking value of 100 (successful
rows only), but both `vehicle_summary` variants report 75 — the average
over all rows of the group. -/
theorem claim_C3_counterexample :
    (vehicleSummaryDP ridesPair).map (fun a => a.avgBookingValue) = [some 75] ∧
    (vehicleSummaryRP ridesPair).map (fun a => a.avgBookingValue) = [some 75] ∧
    optAvg ((ridesPair.filter (fun r => decide (r.isSuccessful = 1))).map
      (fun r => r.bookingValue)) = some 100 ∧
    (some (75 : ℚ)) ≠ some 100 := by
  refine ⟨?_, ?_, ?_, by norm_num⟩
  · simp +decide only [vehicleSummaryDP, vehicleKeys, vehicleGroup, vehicleAggDPOf, ridesPair,
      cleanTable, cleanRow, rowSuccess, rowCancel, mkRaw, normStr, keepRow, fillDist,
      fillPay, revOf, hourOf, optContains, strContains, charsHave, charsStart,
      optAvg, optSum, List.filter, List.dedup, List.filterMap, List.map]
    norm_num
  · simp +decide only [vehicleSummaryRP, vehicleKeys, vehicleGroup, vehicleAggRPOf, ridesPair,
      cleanTable, cleanRow, rowSuccess, rowCancel, mkRaw, normStr, keepRow, fillDist,
      fillPay, revOf, hourOf, optContains, strContains, charsHave, charsStart,
      optAvg, optSum, caseSucc, caseSucc0, round2, List.filter, List.dedup,
      List.filterMap, List.map]
    norm_num [round2]
  · simp +decide only [ridesPair, cleanTable, cleanRow, rowSuccess, rowCancel, mkRaw, normStr,
      keepRow, fillDist, fillPay, revOf, hourOf, optContains, strContains, charsHave,
      charsStart, optAvg, List.filter, List.filterMap, List.map]
    norm_num

/-- C3 amended: in both vehicle-summary variants `Total_Bookings` is the
count of all rows of the group; in `run_project`'s variant the average
distance/driver-rating/customer-rating are conditional aggregates equal
to filter-then-average over the successful rows, and total revenue and
total distance sum the successful rows' values (non-success rows
contributing zero), but `Avg_Booking_Value` is the average over ALL rows
of the group; in `data_processor`'s variant the average booking value is
likewise the average over all rows (as are its other aggregates). -/
theorem claim_C3_amended :
    ∀ (k : Option String) (g : List Row),
      (vehicleAggDPOf k g).totalBookings = g.length ∧
      (vehicleAggRPOf k g).totalBookings = g.length ∧
      (vehicleAggDPOf k g).avgBookingValue = optAvg (g.map (fun r => r.bookingValue)) ∧
      (vehicleAggRPOf k g).avgBookingValue =
        (optAvg (g.map (fun r => r.bookingValue))).map round2 ∧
      (vehicleAggRPOf k g).avgDistance =
        (optAvg ((g.filter (fun r => decide (r.isSuccessful = 1))).map
          (fun r => r.rideDistance))).map round2 ∧
      (vehicleAggRPOf k g).avgDriverRating =
        (optAvg ((g.filter (fun r => decide (r.isSuccessful = 1))).map
          (fun r => r.driverRatings))).map round2 ∧
      (vehicleAggRPOf k g).avgCustomerRating =
        (optAvg ((g.filter (fun r => decide (r.isSuccessful = 1))).map
          (fun r => r.customerRating))).map round2 ∧
      (g ≠ [] → (∀ r ∈ g, r.isSuccessful = 1 → (r.bookingValue).isSome = true) →
        (vehicleAggRPOf k g).totalRevenue =
          some (round2 (((g.filter (fun r => decide (r.isSuccessful = 1))).map
            (fun r => r.bookingValue.getD 0)).sum))) ∧
      (g ≠ [] → (∀ r ∈ g, r.isSuccessful = 1 → (r.rideDistance).isSome = true) →
        (vehicleAggRPOf k g).totalDistance =
          some (round2 (((g.filter (fun r => decide (r.isSuccessful = 1))).map
            (fun r => r.rideDistance.getD 0)).sum))) := by
  intro k g
  refine ⟨rfl, rfl, rfl, rfl, ?_, ?_, ?_, ?_, ?_⟩
  · show (optAvg (g.map (fun r => caseSucc r r.rideDistance))).map round2 = _
    rw [optAvg_caseSucc (fun r => r.rideDistance) g]
  · show (optAvg (g.map (fun r => caseSucc r r.driverRatings))).map round2 = _
    rw [optAvg_caseSucc (fun r => r.driverRatings) g]
  · show (optAvg (g.map (fun r => caseSucc r r.customerRating))).map round2 = _
    rw [optAvg_caseSucc (fun r => r.customerRating) g]
  · intro hg hp
    show (optSum (g.map (fun r => caseSucc0 r r.bookingValue))).map round2 = _
    rw [optSum_caseSucc0 (fun r => r.bookingValue) g hg hp]
    rfl
  · intro hg hp
    show (optSum (g.map (fun r => caseSucc0 r r.rideDistance))).map round2 = _
    rw [optSum_caseSucc0 (fun r => r.rideDistance) g hg hp]
    rfl

theorem claim_C3_witness :
    (vehicleAggRPOf (some "Auto") (vehicleGroup ridesPair (some "Auto"))).totalRevenue =
      some 100 := by
  have h := (claim_C3_amended (some "Auto")
    (vehicleGroup ridesPair (some "Auto"))).2.2.2.2.2.2.2.1
  have hne : vehicleGroup ridesPair (some "Auto") ≠ [] := by
    simp +decide [vehicleGroup, ridesPair, cleanTable, cleanRow, rowSuccess, rowCancel,
      mkRaw, normStr, keepRow, fillDist, fillPay, revOf, hourOf, optContains,
      strContains, charsHave, charsStart]
  have hp : ∀ r ∈ vehicleGroup ridesPair (some "Auto"),
      r.isSuccessful = 1 → (r.bookingValue).isSome = true := by
    simp +decide [vehicleGroup, ridesPair, cleanTable, cleanRow, rowSuccess, rowCancel,
      mkRaw, normStr, keepRow, fillDist, fillPay, revOf, hourOf, optContains,
      strContains, charsHave, charsStart]
  rw [h hne hp]
  simp +decide only [vehicleGroup, ridesPair, cleanTable, cleanRow, rowSuccess, rowCancel,
    mkRaw, normStr, keepRow, fillDist, fillPay, revOf, hourOf, optContains,
    strContains, charsHave, charsStart, round2, List.filter, List.filterMap, List.map]
  norm_num

/-- C7 counterexample: the top-customers query sorts by `Total_Spent
DESC` only, with no secondary key.  For a state with two customers of
equal total spend and `limit = 1`, both singleton result sets satisfy
the query's ordering specification, so the result is not determined —
there is no tie-break. -/
theorem claim_C7_counterexample :
    isTopResult ridesTie 1
      [custAggQOf (some "C1") (custGroup ridesTie (some "C1"))] ∧
    isTopResult ridesTie 1
      [custAggQOf (some "C2") (custGroup ridesTie (some "C2"))] ∧
    ([custAggQOf (some "C1") (custGroup ridesTie (some "C1"))] : List CustAggQ) ≠
      [custAggQOf (some "C2") (custGroup ridesTie (some "C2"))] := by
  have h : topCustomerAggs ridesTie =
      [custAggQOf (some "C1") (custGroup ridesTie (some "C1")),
       custAggQOf (some "C2") (custGroup ridesTie (some "C2"))] := by
    simp +decide only [topCustomerAggs, custKeys, custGroup, custAggQOf, spentPos, ridesTie,
      cleanTable, cleanRow, rowSuccess, rowB100, mkRaw, normStr, keepRow, fillDist,
      fillPay, revOf, hourOf, optContains, strContains, charsHave, charsStart,
      isSuccessStatus, optSum, optAvg, round2, List.filter, List.dedup,
      List.filterMap, List.map]
    norm_num [round2]
  have hge12 : spentGE (custAggQOf (some "C1") (custGroup ridesTie (some "C1")))
      (custAggQOf (some "C2") (custGroup ridesTie (some "C2"))) := by
    simp +decide only [spentGE, spentVal, custAggQOf, custGroup, ridesTie,
      cleanTable, cleanRow, rowSuccess, rowB100, mkRaw, normStr, keepRow, fillDist,
      fillPay, revOf, hourOf, optContains, strContains, charsHave, charsStart,
      isSuccessStatus, optSum, round2, List.filter, List.filterMap, List.map]
    norm_num [round2]
  have hge21 : spentGE (custAggQOf (some "C2") (custGroup ridesTie (some "C2")))
      (custAggQOf (some "C1") (custGroup ridesTie (some "C1"))) := by
    simp +decide only [spentGE, spentVal, custAggQOf, custGroup, ridesTie,
      cleanTable, cleanRow, rowSuccess, rowB100, mkRaw, normStr, keepRow, fillDist,
      fillPay, revOf, hourOf, optContains, strContains, charsHave, charsStart,
      isSuccessStatus, optSum, round2, List.filter, List.filterMap, List.map]
    norm_num [round2]
  refine ⟨?_, ?_, ?_⟩
  · refine ⟨[custAggQOf (some "C1") (custGroup ridesTie (some "C1")),
      custAggQOf (some "C2") (custGroup ridesTie (some "C2"))], ?_, ?_, rfl⟩
    · rw [h]
    · rw [List.pairwise_cons]
      exact ⟨fun y hy => by rw [List.mem_singleton.mp hy]; exact hge12,
        List.pairwise_singleton _ _⟩
  · refine ⟨[custAggQOf (some "C2") (custGroup ridesTie (some "C2")),
      custAggQOf (some "C1") (custGroup ridesTie (some "C1"))], ?_, ?_, rfl⟩
    · rw [h]
      exact List.Perm.swap _ _ _
    · rw [List.pairwise_cons]
      exact ⟨fun y hy => by rw [List.mem_singleton.mp hy]; exact hge21,
        List.pairwise_singleton _ _⟩
  · simp only [custAggQOf, List.cons.injEq, CustAggQ.mk.injEq, and_true, ne_eq, not_and]
    intro hc
    simp at hc

/-- C7 amended: the top-customers query applies NO tie-break — it orders
by `Total_Spent` descending only.  Consequently, whenever two distinct
customers tie for the maximal total spend, both singleton result sets
satisfy the query specification at `limit = 1`: the result is not
uniquely determined by the query's ordering. -/
theorem claim_C7_amended :
    ∀ (t : List Row) (a b : CustAggQ),
      a ∈ topCustomerAggs t → b ∈ topCustomerAggs t →
      (∀ c ∈ topCustomerAggs t, spentVal c ≤ spentVal a) →
      spentVal a = spentVal b → a ≠ b →
      isTopResult t 1 [a] ∧ isTopResult t 1 [b] ∧ ([a] : List CustAggQ) ≠ [b] := by
  intro t a b ha hb hmax heq hne
  have key : ∀ x : CustAggQ, x ∈ topCustomerAggs t →
      (∀ c ∈ topCustomerAggs t, spentVal c ≤ spentVal x) → isTopResult t 1 [x] := by
    intro x hx hxmax
    refine ⟨x :: List.insertionSort spentGE ((topCustomerAggs t).erase x), ?_, ?_, rfl⟩
    · exact (List.perm_cons_erase hx).trans
        (List.Perm.cons x (List.perm_insertionSort spentGE _).symm)
    · rw [List.pairwise_cons]
      constructor
      · intro y hy
        have hy2 : y ∈ (topCustomerAggs t).erase x :=
          (List.perm_insertionSort spentGE _).mem_iff.mp hy
        exact hxmax y (List.mem_of_mem_erase hy2)
      · exact List.sorted_insertionSort spentGE _
  refine ⟨key a ha hmax, key b hb (fun c hc => heq ▸ hmax c hc), ?_⟩
  simpa using hne

theorem claim_C7_witness :
    isTopResult ridesTie 1
      [custAggQOf (some "C1") (custGroup ridesTie (some "C1"))] := by
  have h : topCustomerAggs ridesTie =
      [custAggQOf (some "C1") (custGroup ridesTie (some "C1")),
       custAggQOf (some "C2") (custGroup ridesTie (some "C2"))] := by
    simp +decide only [topCustomerAggs, custKeys, custGroup, custAggQOf, spentPos, ridesTie,
      cleanTable, cleanRow, rowSuccess, rowB100, mkRaw, normStr, keepRow, fillDist,
      fillPay, revOf, hourOf, optContains, strContains, charsHave, charsStart,
      isSuccessStatus, optSum, optAvg, round2, List.filter, List.dedup,
      List.filterMap, List.map]
    norm_num [round2]
  have hs : spentVal (custAggQOf (some "C1") (custGroup ridesTie (some "C1"))) = 100 ∧
      spentVal (custAggQOf (some "C2") (custGroup ridesTie (some "C2"))) = 100 := by
    constructor <;>
      (simp +decide only [spentVal, custAggQOf, custGroup, ridesTie,
        cleanTable, cleanRow, rowSuccess, rowB100, mkRaw, normStr, keepRow, fillDist,
        fillPay, revOf, hourOf, optContains, strContains, charsHave, charsStart,
        isSuccessStatus, optSum, round2, List.filter, List.filterMap, List.map]
       norm_num [round2])
  refine (claim_C7_amended ridesTie
    (custAggQOf (some "C1") (custGroup ridesTie (some "C1")))
    (custAggQOf (some "C2") (custGroup ridesTie (some "C2")))
    ?_ ?_ ?_ ?_ ?_).1
  · rw [h]
    exact List.mem_cons_self _ _
  · rw [h]
    exact List.mem_cons_of_mem _ (List.mem_cons_self _ _)
  · intro c hc
    rw [h] at hc
    rcases List.mem_cons.mp hc with hc1 | hc2
    · rw [hc1, hs.1]
    · rw [List.mem_singleton.mp hc2, hs.2, hs.1]
  · rw [hs.1, hs.2]
  · intro hc
    have := congrArg (fun a => a.customerId) hc
    simp [custAggQOf] at this

/-- C8 counterexample: a negative limit is not rejected — SQLite treats
`LIMIT -1` as "no limit", so the top-customers query returns every
qualifying customer row (here both of them) instead of failing with a
descriptive error. -/
theorem claim_C8_counterexample :
    isTopResult ridesDistinct (-1)
      [custAggQOf (some "C1") (custGroup ridesDistinct (some "C1")),
       custAggQOf (some "C2") (custGroup ridesDistinct (some "C2"))] ∧
    ([custAggQOf (some "C1") (custGroup ridesDistinct (some "C1")),
      custAggQOf (some "C2") (custGroup ridesDistinct (some "C2"))] : List CustAggQ).length
      = 2 := by
  have h : topCustomerAggs ridesDistinct =
      [custAggQOf (some "C1") (custGroup ridesDistinct (some "C1")),
       custAggQOf (some "C2") (custGroup ridesDistinct (some "C2"))] := by
    simp +decide only [topCustomerAggs, custKeys, custGroup, custAggQOf, spentPos,
      ridesDistinct, cleanTable, cleanRow, rowSuccess, rowB50, mkRaw, normStr, keepRow,
      fillDist, fillPay, revOf, hourOf, optContains, strContains, charsHave, charsStart,
      isSuccessStatus, optSum, optAvg, round2, List.filter, List.dedup,
      List.filterMap, List.map]
    norm_num [round2]
  refine ⟨⟨[custAggQOf (some "C1") (custGroup ridesDistinct (some "C1")),
      custAggQOf (some "C2") (custGroup ridesDistinct (some "C2"))], ?_, ?_, rfl⟩, rfl⟩
  · rw [h]
  · rw [List.pairwise_cons]
    refine ⟨fun y hy => ?_, List.pairwise_singleton _ _⟩
    rw [List.mem_singleton.mp hy]
    simp +decide only [spentGE, spentVal, custAggQOf, custGroup, ridesDistinct,
      cleanTable, cleanRow, rowSuccess, rowB50, mkRaw, normStr, keepRow, fillDist,
      fillPay, revOf, hourOf, optContains, strContains, charsHave, charsStart,
      isSuccessStatus, optSum, round2, List.filter, List.filterMap, List.map]
    norm_num [round2]

/-- C8 amended: a negative limit is passed straight to the store; with
SQLite's semantics it means "no limit", so any valid result at a
negative limit is a permutation of ALL qualifying aggregate rows — the
query returns a result (and, being read-only, touches no state) instead
of failing fast. -/
theorem claim_C8_amended :
    ∀ (t : List Row) (limit : Int) (out : List CustAggQ),
      limit < 0 → isTopResult t limit out → out.Perm (topCustomerAggs t) := by
  intro t limit out hneg hres
  obtain ⟨p, hperm, _, hout⟩ := hres
  rw [hout, limitTake, if_pos hneg]
  exact hperm.symm

theorem claim_C8_witness :
    ([custAggQOf (some "C1") (custGroup ridesDistinct (some "C1")),
      custAggQOf (some "C2") (custGroup ridesDistinct (some "C2"))] : List CustAggQ).Perm
      (topCustomerAggs ridesDistinct) := by
  have h : topCustomerAggs ridesDistinct =
      [custAggQOf (some "C1") (custGroup ridesDistinct (some "C1")),
       custAggQOf (some "C2") (custGroup ridesDistinct (some "C2"))] := by
    simp +decide only [topCustomerAggs, custKeys, custGroup, custAggQOf, spentPos,
      ridesDistinct, cleanTable, cleanRow, rowSuccess, rowB50, mkRaw, normStr, keepRow,
      fillDist, fillPay, revOf, hourOf, optContains, strContains, charsHave, charsStart,
      isSuccessStatus, optSum, optAvg, round2, List.filter, List.dedup,
      List.filterMap, List.map]
    norm_num [round2]
  refine claim_C8_amended ridesDistinct (-1) _ (by norm_num) ?_
  refine ⟨topCustomerAggs ridesDistinct, List.Perm.refl _, ?_, ?_⟩
  · rw [h, List.pairwise_cons]
    refine ⟨fun y hy => ?_, List.pairwise_singleton _ _⟩
    rw [List.mem_singleton.mp hy]
    simp +decide only [spentGE, spentVal, custAggQOf, custGroup, ridesDistinct,
      cleanTable, cleanRow, rowSuccess, rowB50, mkRaw, normStr, keepRow, fillDist,
      fillPay, revOf, hourOf, optContains, strContains, charsHave, charsStart,
      isSuccessStatus, optSum, round2, List.filter, List.filterMap, List.map]
    norm_num [round2]
  · rw [limitTake, if_pos (by norm_num : (-1 : Int) < 0), h]
